import Mathlib

set_option maxRecDepth 2000

/-!
Verification of the runway-calculator core of campus-survival-coach
(`src/features/runway-calculator/logic.ts`, class `RunwayLogic`) against its
natural-language specification.

The embedding models JavaScript numbers as an inductive type distinguishing
NaN, the two infinities and finite values (finite values as exact rationals),
and JavaScript `Date` objects as either invalid or a millisecond timestamp.
Calendar arithmetic (`date-fns` `addDays`, `isSameDay`, `getDate`) is modelled
in a fixed-offset (UTC) timezone: `addDays` adds 86 400 000 ms, `isSameDay`
compares epoch-day numbers, `getDate` returns the day-of-month of the civil
date corresponding to the epoch-day number (proleptic Gregorian calendar).
-/

/-- A JavaScript number: NaN, ±Infinity or a finite value (exact rational). -/
inductive JSNum : Type
  | nan : JSNum
  | posInf : JSNum
  | negInf : JSNum
  | num : ℚ → JSNum
deriving DecidableEq

/-- JS `Number.isFinite`. -/
def JSNum.isFinite : JSNum → Bool
  | .num _ => true
  | _ => false

/-- JS `Number.isInteger`: true exactly for finite integral values. -/
def JSNum.isInteger : JSNum → Bool
  | .num q => decide (q.den = 1)
  | _ => false

/-- The rational value of a finite JS number (callers only use this after an
`isFinite` / `isInteger` guard, mirroring the throw-first validation of the source). -/
def JSNum.toRat : JSNum → ℚ
  | .num q => q
  | _ => 0

/-- A JavaScript `Date`: either an Invalid Date (`getTime()` is NaN) or a
millisecond timestamp. -/
inductive JSDate : Type
  | invalid : JSDate
  | valid : Int → JSDate
deriving DecidableEq

/-- The check `date instanceof Date && !isNaN(date.getTime())`. -/
def JSDate.isValid : JSDate → Bool
  | .invalid => false
  | .valid _ => true

/-- The timestamp of a valid date (only used after validation). -/
def JSDate.time : JSDate → Int
  | .invalid => 0
  | .valid t => t

/-- Milliseconds per calendar day. -/
def msPerDay : Int := 86400000

/-- Epoch-day number of a timestamp (floor division, so pre-1970 works). -/
def dayNumber (t : Int) : Int := Int.fdiv t msPerDay

/-- The `date-fns` `isSameDay`: same calendar day, not same instant. -/
def isSameDay (t1 t2 : Int) : Bool := dayNumber t1 == dayNumber t2

/-- The `date-fns` `addDays`: add whole calendar days, keeping the time of day. -/
def addDaysTs (t : Int) (n : Int) : Int := t + n * msPerDay

/-- Civil (proleptic Gregorian) date of an epoch-day number, as
(year, month, day).  Standard era/day-of-era decomposition. -/
def civilFromDays (z : Int) : Int × Nat × Nat :=
  let z' := z + 719468
  let era := Int.fdiv z' 146097
  let doe := (z' - era * 146097).toNat
  let yoe := (doe - doe / 1460 + doe / 36524 - doe / 146096) / 365
  let doy := doe - (365 * yoe + yoe / 4 - yoe / 100)
  let mp := (5 * doy + 2) / 153
  let d := doy - (153 * mp + 2) / 5 + 1
  let m := if mp < 10 then mp + 3 else mp - 9
  (era * 400 + (yoe : Int) + (if m ≤ 2 then 1 else 0), m, d)

/-- The `date-fns` `getDate`: day-of-month (1–31) of the calendar day of a timestamp. -/
def getDate (t : Int) : Nat := (civilFromDays (dayNumber t)).2.2

/-- Structure `FixedExpense` (`types.ts`): a recurring obligation.  The `id` and
`category` metadata fields play no role in the calculation or in the
validation error messages and are omitted. -/
structure FixedExpense : Type where
  name : String
  amount : JSNum
  dueDay : JSNum
deriving DecidableEq

/-- Structure `IncomeEvent` (`types.ts`): a one-time expected inflow.  The `id`,
`reliability` and `isReceived` advisory fields play no role in the
calculation and are omitted. -/
structure IncomeEvent : Type where
  source : String
  amount : JSNum
  date : JSDate
deriving DecidableEq

/-- The parameter record of `RunwayLogic.calculateRunway`. -/
structure RunwayParams : Type where
  currentBalance : JSNum
  startDate : JSDate
  fixedExpenses : List FixedExpense
  incomeEvents : List IncomeEvent
  dailyVariableSpend : JSNum
deriving DecidableEq

/-- The health classification. -/
inductive Status : Type
  | good : Status
  | warning : Status
  | critical : Status
deriving DecidableEq

/-- One `projectedBalance` entry: `{date, balance: Math.floor(balance)}`.
The source stores the date as an ISO string; we keep the timestamp. -/
structure DayBalance : Type where
  date : Int
  balance : Int
deriving DecidableEq

/-- Structure `RunwayResult` (`types.ts`). -/
structure RunwayResult : Type where
  daysRemaining : Nat
  safeDailySpend : Int
  brokeDate : Int
  status : Status
  projectedBalance : List DayBalance
deriving DecidableEq

deriving instance DecidableEq for Except

namespace RunwayLogic

/-- Income for the day: sum of `incomeEvents` filtered by `isSameDay(e.date, d)`. -/
def incomeOn (ie : List IncomeEvent) (t : Int) : ℚ :=
  (ie.filter (fun e => isSameDay e.date.time t)).foldl
    (fun s e => s + e.amount.toRat) 0

/-- Fixed expenses for the day: sum of `fixedExpenses` filtered by
`e.dueDay === getDate(d)` — note: the source compares the nominal due day
directly against the day-of-month, with no month-end clamping. -/
def fixedOn (fe : List FixedExpense) (t : Int) : ℚ :=
  (fe.filter (fun e => decide (e.dueDay.toRat = ((getDate t : Nat) : ℚ)))).foldl
    (fun s e => s + e.amount.toRat) 0

/-- The balance at the end of one simulated day: add income, subtract fixed
expenses, subtract the daily variable spend (steps 1–3 of the loop body). -/
def dayEnd (fe : List FixedExpense) (ie : List IncomeEvent) (dvs : ℚ)
    (b : ℚ) (t : Int) : ℚ :=
  b + incomeOn ie t - fixedOn fe t - dvs

/-- The outcome of the `while (daysResult < maxDays)` loop: the final
`daysResult`, `currentDate` and `projection`. -/
structure SimOut : Type where
  daysResult : Nat
  currentDate : Int
  projection : List DayBalance
deriving DecidableEq

/-- The day-by-day simulation loop of `calculateRunway`.  `fuel` counts the
remaining iterations allowed by `daysResult < maxDays` (the loop increments
`daysResult` exactly once per completed iteration, so starting with
`fuel = 365` and `days = 0` keeps `days + fuel = 365` invariant).  On each
day: credit income, debit matching fixed expenses, debit the variable spend,
push the record, and break — without counting the day — if the balance went
negative. -/
def runLoop (fe : List FixedExpense) (ie : List IncomeEvent) (dvs : ℚ) :
    Nat → ℚ → Int → Nat → List DayBalance → SimOut
  | 0, _, t, days, acc => ⟨days, t, acc.reverse⟩
  | fuel + 1, b, t, days, acc =>
    if dayEnd fe ie dvs b t < 0 then
      ⟨days, t, (⟨t, Rat.floor (dayEnd fe ie dvs b t)⟩ :: acc).reverse⟩
    else
      runLoop fe ie dvs fuel (dayEnd fe ie dvs b t) (addDaysTs t 1) (days + 1)
        (⟨t, Rat.floor (dayEnd fe ie dvs b t)⟩ :: acc)

/-- The classification `if (daysResult < 7) critical else if (daysResult < 30) warning else good`. -/
def statusOf (d : Nat) : Status :=
  if d < 7 then .critical else if d < 30 then .warning else .good

/-- Helper `RunwayLogic.calculateSafeSpendForTarget`: available money over the next
`targetDays` days (balance, plus income whose full timestamp lies in the
inclusive window, minus fixed expenses matched day by day), floored-divided
by `targetDays`, with a 0 cutoff. -/
def calculateSafeSpendForTarget (targetDays : Nat) (p : RunwayParams) : Int :=
  let startT := p.startDate.time
  let targetDate := addDaysTs startT (targetDays : Int)
  let relevantIncome :=
    (p.incomeEvents.filter (fun e =>
        decide (e.date.time ≤ targetDate) && decide (startT ≤ e.date.time))).foldl
      (fun s e => s + e.amount.toRat) 0
  let totalFixed :=
    (List.range targetDays).foldl
      (fun acc i => acc + fixedOn p.fixedExpenses (addDaysTs startT (i : Int))) 0
  let availableMoney := p.currentBalance.toRat + relevantIncome - totalFixed
  if availableMoney ≤ 0 then 0
  else Rat.floor (availableMoney / (targetDays : ℚ))

/-- The validation prologue over `fixedExpenses`: first error message, if any.
Mirrors the fail-on-first `for` loop of the source. -/
def validateExpenses : List FixedExpense → Option String
  | [] => none
  | e :: rest =>
    if e.amount.isFinite = false ∨ e.amount.toRat ≤ 0 then
      some ("Invalid expense amount for " ++ e.name)
    else if e.dueDay.isInteger = false ∨ e.dueDay.toRat < 1 ∨ 31 < e.dueDay.toRat then
      some ("Invalid dueDay for " ++ e.name)
    else validateExpenses rest

/-- The validation prologue over `incomeEvents`: first error message, if any. -/
def validateIncomes : List IncomeEvent → Option String
  | [] => none
  | e :: rest =>
    if e.amount.isFinite = false ∨ e.amount.toRat ≤ 0 then
      some ("Invalid income amount for " ++ e.source)
    else if e.date.isValid = false then
      some ("Invalid income date for " ++ e.source)
    else validateIncomes rest

/-- The validation prologue of `calculateRunway`: the
first error thrown, if any, in source order. -/
def validateParams (p : RunwayParams) : Option String :=
  if p.currentBalance.isFinite = false then
    some "Invalid balance: must be a finite number"
  else if p.currentBalance.toRat < -1000000 then
    some "Balance too low"
  else if p.currentBalance.toRat > 100000000 then
    some "Balance too high"
  else if p.dailyVariableSpend.isFinite = false then
    some "Invalid daily spend: must be a finite number"
  else if p.dailyVariableSpend.toRat < 0 then
    some "Daily spend cannot be negative"
  else if p.dailyVariableSpend.toRat > 100000 then
    some "Daily spend unrealistically high"
  else if p.startDate.isValid = false then
    some "Invalid start date"
  else
    match validateExpenses p.fixedExpenses with
    | some msg => some msg
    | none => validateIncomes p.incomeEvents

/-- The body of `calculateRunway` after validation: negative-start
short-circuit, then the 365-day simulation, status classification and the
safe-spend helper. -/
def runwayCore (p : RunwayParams) : RunwayResult :=
  let balance := p.currentBalance.toRat
  let startT := p.startDate.time
  if balance < 0 then
    ⟨0, 0, startT, .critical, []⟩
  else
    let out := runLoop p.fixedExpenses p.incomeEvents p.dailyVariableSpend.toRat
        365 balance startT 0 []
    ⟨out.daysResult, calculateSafeSpendForTarget 30 p, out.currentDate,
      statusOf out.daysResult, out.projection⟩

/-- Main operation `RunwayLogic.calculateRunway`: throw (here: `Except.error`) the first
validation failure, otherwise run the simulation. -/
def calculateRunway (p : RunwayParams) : Except String RunwayResult :=
  match validateParams p with
  | some msg => .error msg
  | none => .ok (runwayCore p)

/-- Whether a run completed without throwing. -/
def resultIsOk : Except String RunwayResult → Bool
  | .ok _ => true
  | .error _ => false

/-- The exact balance at the end of simulated day `k` (day 0 starts at
balance `b` on timestamp `t`), independent of the loop. -/
def balAfter (fe : List FixedExpense) (ie : List IncomeEvent) (dvs : ℚ)
    (b : ℚ) (t : Int) : Nat → ℚ
  | 0 => dayEnd fe ie dvs b t
  | k + 1 => balAfter fe ie dvs (dayEnd fe ie dvs b t) (addDaysTs t 1) k

/-- The preconditions of `project` as the specification states them: finite
in-band balance and spend, valid start date, and well-formed obligation and
income records. -/
def PrecondsHold (p : RunwayParams) : Prop :=
  p.currentBalance.isFinite = true ∧
  -1000000 ≤ p.currentBalance.toRat ∧ p.currentBalance.toRat ≤ 100000000 ∧
  p.dailyVariableSpend.isFinite = true ∧
  0 ≤ p.dailyVariableSpend.toRat ∧ p.dailyVariableSpend.toRat ≤ 100000 ∧
  p.startDate.isValid = true ∧
  (∀ e ∈ p.fixedExpenses, e.amount.isFinite = true ∧ 0 < e.amount.toRat ∧
    e.dueDay.isInteger = true ∧ 1 ≤ e.dueDay.toRat ∧ e.dueDay.toRat ≤ 31) ∧
  (∀ e ∈ p.incomeEvents, e.amount.isFinite = true ∧ 0 < e.amount.toRat ∧
    e.date.isValid = true)

/-- The safe-spend sub-algorithm as the claim of the specification words it:
available money is the current balance, plus all income dated within the
inclusive window from the start date to 30 days later, minus the obligations
falling due over the 30 days from the start date; if the available money is
nonpositive the answer is 0, otherwise the floor of the 30-day average.
Stated over (balance, start, obligations, income) only, so it is independent
of the daily variable spend by construction. -/
def safeSpendSpec (balance : ℚ) (startT : Int) (fe : List FixedExpense)
    (ie : List IncomeEvent) : Int :=
  let income :=
    (ie.filter (fun e =>
        decide (startT ≤ e.date.time) && decide (e.date.time ≤ addDaysTs startT 30))).foldl
      (fun s e => s + e.amount.toRat) 0
  let obligations :=
    (List.range 30).foldl (fun acc i => acc + fixedOn fe (addDaysTs startT (i : Int))) 0
  let availableMoney := balance + income - obligations
  if availableMoney ≤ 0 then 0 else Rat.floor (availableMoney / 30)

/-! ### Helper lemmas -/

theorem calculateRunway_ok_iff (p : RunwayParams) (r : RunwayResult) :
    calculateRunway p = .ok r ↔ validateParams p = none ∧ r = runwayCore p := by
  cases h : validateParams p <;> simp [calculateRunway, h, eq_comm]

theorem resultIsOk_iff (p : RunwayParams) :
    resultIsOk (calculateRunway p) = true ↔ validateParams p = none := by
  cases h : validateParams p <;> simp [calculateRunway, resultIsOk, h]

theorem dayEnd_mono (fe : List FixedExpense) (ie : List IncomeEvent) (dvs : ℚ)
    {b b' : ℚ} (t : Int) (h : b ≤ b') :
    dayEnd fe ie dvs b t ≤ dayEnd fe ie dvs b' t := by
  unfold dayEnd; linarith

theorem runLoop_days_ge (fe : List FixedExpense) (ie : List IncomeEvent) (dvs : ℚ) :
    ∀ (fuel : Nat) (b : ℚ) (t : Int) (days : Nat) (acc : List DayBalance),
      days ≤ (runLoop fe ie dvs fuel b t days acc).daysResult := by
  intro fuel
  induction fuel with
  | zero => intro b t days acc; exact le_refl _
  | succ n ih =>
    intro b t days acc
    rw [runLoop]
    split
    · exact le_refl _
    · exact le_trans (Nat.le_succ days) (ih _ _ _ _)

theorem runLoop_days_le (fe : List FixedExpense) (ie : List IncomeEvent) (dvs : ℚ) :
    ∀ (fuel : Nat) (b : ℚ) (t : Int) (days : Nat) (acc : List DayBalance),
      (runLoop fe ie dvs fuel b t days acc).daysResult ≤ days + fuel := by
  intro fuel
  induction fuel with
  | zero => intro b t days acc; simp [runLoop]
  | succ n ih =>
    intro b t days acc
    rw [runLoop]
    split
    · simp
    · calc (runLoop fe ie dvs n _ _ (days + 1) _).daysResult
          ≤ days + 1 + n := ih _ _ _ _
        _ = days + (n + 1) := by omega

theorem runLoop_mono (fe : List FixedExpense) (ie : List IncomeEvent) (dvs : ℚ) :
    ∀ (fuel : Nat) (b b' : ℚ) (t : Int) (days : Nat) (acc acc' : List DayBalance),
      b ≤ b' →
      (runLoop fe ie dvs fuel b t days acc).daysResult ≤
        (runLoop fe ie dvs fuel b' t days acc').daysResult := by
  intro fuel
  induction fuel with
  | zero => intro b b' t days acc acc' _; exact le_refl _
  | succ n ih =>
    intro b b' t days acc acc' hbb
    have hde : dayEnd fe ie dvs b t ≤ dayEnd fe ie dvs b' t := dayEnd_mono fe ie dvs t hbb
    rw [runLoop, runLoop]
    by_cases h1 : dayEnd fe ie dvs b t < 0
    · rw [if_pos h1]
      by_cases h2 : dayEnd fe ie dvs b' t < 0
      · rw [if_pos h2]
      · rw [if_neg h2]
        exact le_trans (Nat.le_succ days) (runLoop_days_ge fe ie dvs n _ _ _ _)
    · rw [if_neg h1]
      have h2 : ¬ dayEnd fe ie dvs b' t < 0 := fun hc => h1 (lt_of_le_of_lt hde hc)
      rw [if_neg h2]
      exact ih _ _ _ _ _ _ hde

theorem runLoop_full (fe : List FixedExpense) (ie : List IncomeEvent) (dvs : ℚ) :
    ∀ (fuel : Nat) (b : ℚ) (t : Int) (days : Nat) (acc : List DayBalance),
      (∀ k, k < fuel → 0 ≤ balAfter fe ie dvs b t k) →
      (runLoop fe ie dvs fuel b t days acc).daysResult = days + fuel ∧
      (runLoop fe ie dvs fuel b t days acc).currentDate = t + fuel * msPerDay := by
  intro fuel
  induction fuel with
  | zero => intro b t days acc _; simp [runLoop]
  | succ n ih =>
    intro b t days acc hsafe
    have h0 : 0 ≤ dayEnd fe ie dvs b t := hsafe 0 (Nat.succ_pos n)
    have hrest : ∀ k, k < n →
        0 ≤ balAfter fe ie dvs (dayEnd fe ie dvs b t) (addDaysTs t 1) k := by
      intro k hk
      exact hsafe (k + 1) (Nat.succ_lt_succ hk)
    rw [runLoop, if_neg (not_lt.mpr h0)]
    obtain ⟨hd, hc⟩ := ih (dayEnd fe ie dvs b t) (addDaysTs t 1) (days + 1) _ hrest
    refine ⟨by rw [hd]; omega, ?_⟩
    rw [hc]
    unfold addDaysTs
    push_cast
    ring

theorem validateExpenses_eq_none (l : List FixedExpense) :
    validateExpenses l = none ↔ ∀ e ∈ l,
      e.amount.isFinite = true ∧ 0 < e.amount.toRat ∧
      e.dueDay.isInteger = true ∧ 1 ≤ e.dueDay.toRat ∧ e.dueDay.toRat ≤ 31 := by
  induction l with
  | nil => simp [validateExpenses]
  | cons e rest ih =>
    rw [validateExpenses]
    split_ifs with h1 h2
    · simp only [List.mem_cons]
      constructor
      · intro hc; cases hc
      · intro hall
        obtain ⟨hf, hpos, -⟩ := hall e (Or.inl rfl)
        rcases h1 with h1 | h1
        · rw [hf] at h1; cases h1
        · exact absurd hpos (not_lt.mpr h1)
    · simp only [List.mem_cons]
      constructor
      · intro hc; cases hc
      · intro hall
        obtain ⟨-, -, hint, hlo, hhi⟩ := hall e (Or.inl rfl)
        rcases h2 with h2 | h2 | h2
        · rw [hint] at h2; cases h2
        · exact absurd hlo (not_le.mpr h2)
        · exact absurd hhi (not_le.mpr h2)
    · rw [ih]
      push_neg at h1 h2
      constructor
      · intro hall e' he'
        rcases List.mem_cons.mp he' with rfl | he'
        · exact ⟨by simpa using h1.1, h1.2, by simpa using h2.1, h2.2.1, h2.2.2⟩
        · exact hall e' he'
      · intro hall e' he'
        exact hall e' (List.mem_cons_of_mem _ he')

theorem validateIncomes_eq_none (l : List IncomeEvent) :
    validateIncomes l = none ↔ ∀ e ∈ l,
      e.amount.isFinite = true ∧ 0 < e.amount.toRat ∧ e.date.isValid = true := by
  induction l with
  | nil => simp [validateIncomes]
  | cons e rest ih =>
    rw [validateIncomes]
    split_ifs with h1 h2
    · simp only [List.mem_cons]
      constructor
      · intro hc; cases hc
      · intro hall
        obtain ⟨hf, hpos, -⟩ := hall e (Or.inl rfl)
        rcases h1 with h1 | h1
        · rw [hf] at h1; cases h1
        · exact absurd hpos (not_lt.mpr h1)
    · simp only [List.mem_cons]
      constructor
      · intro hc; cases hc
      · intro hall
        obtain ⟨-, -, hv⟩ := hall e (Or.inl rfl)
        rw [hv] at h2; cases h2
    · rw [ih]
      push_neg at h1
      constructor
      · intro hall e' he'
        rcases List.mem_cons.mp he' with rfl | he'
        · exact ⟨by simpa using h1.1, h1.2, by simpa using h2⟩
        · exact hall e' he'
      · intro hall e' he'
        exact hall e' (List.mem_cons_of_mem _ he')

theorem validateParams_none_iff (p : RunwayParams) :
    validateParams p = none ↔ PrecondsHold p := by
  unfold validateParams PrecondsHold
  split_ifs with h1 h2 h3 h4 h5 h6 h7
  · constructor
    · intro hc; cases hc
    · rintro ⟨hf, -⟩; rw [hf] at h1; cases h1
  · constructor
    · intro hc; cases hc
    · rintro ⟨-, hle, -⟩; exact absurd hle (not_le.mpr h2)
  · constructor
    · intro hc; cases hc
    · rintro ⟨-, -, hle, -⟩; exact absurd hle (not_le.mpr h3)
  · constructor
    · intro hc; cases hc
    · rintro ⟨-, -, -, hf, -⟩; rw [hf] at h4; cases h4
  · constructor
    · intro hc; cases hc
    · rintro ⟨-, -, -, -, hle, -⟩; exact absurd hle (not_le.mpr h5)
  · constructor
    · intro hc; cases hc
    · rintro ⟨-, -, -, -, -, hle, -⟩; exact absurd hle (not_le.mpr h6)
  · constructor
    · intro hc; cases hc
    · rintro ⟨-, -, -, -, -, -, hv, -⟩; rw [hv] at h7; cases h7
  · cases hve : validateExpenses p.fixedExpenses with
    | some m =>
      constructor
      · intro hc; cases hc
      · rintro ⟨-, -, -, -, -, -, -, hfe, -⟩
        rw [(validateExpenses_eq_none _).mpr hfe] at hve
        cases hve
    | none =>
      rw [validateIncomes_eq_none]
      constructor
      · intro hin
        exact ⟨Bool.not_eq_false _ ▸ h1, not_lt.mp h2, not_lt.mp h3,
          Bool.not_eq_false _ ▸ h4, not_lt.mp h5, not_lt.mp h6,
          Bool.not_eq_false _ ▸ h7, (validateExpenses_eq_none _).mp hve, hin⟩
      · rintro ⟨-, -, -, -, -, -, -, -, hin⟩
        exact hin

/-- The 30-day safe-spend helper of the source computes exactly the formula
of the claim (the two differ only in the order of the two window bounds). -/
theorem calculateSafeSpend_eq_spec (p : RunwayParams) :
    calculateSafeSpendForTarget 30 p =
      safeSpendSpec p.currentBalance.toRat p.startDate.time p.fixedExpenses
        p.incomeEvents := by
  simp only [calculateSafeSpendForTarget, safeSpendSpec, Bool.and_comm, Nat.cast_ofNat]

/-- With no obligations, no income and zero daily spend, one simulated day
leaves the balance unchanged. -/
theorem dayEnd_nil (b : ℚ) (t : Int) : dayEnd [] [] 0 b t = b := by
  simp [dayEnd, incomeOn, fixedOn]

/-- With no obligations, no income and zero daily spend, the balance is
constant over the whole simulation. -/
theorem balAfter_nil : ∀ (k : Nat) (b : ℚ) (t : Int), balAfter [] [] 0 b t k = b := by
  intro k
  induction k with
  | zero => intro b t; rw [balAfter, dayEnd_nil]
  | succ n ih => intro b t; rw [balAfter, dayEnd_nil]; exact ih b _

end RunwayLogic


/-! ### Claim theorems -/

open RunwayLogic

/-- C1 (month-end clamping of due days): the claim fails on the code.  With
one obligation of 500 due on the 31st, balance 400, zero variable spend and
a start of 2025-02-27 (timestamp 1740614400000; February 2025 is non-leap),
the clamping required by the specification would charge it on Feb 28 (day 1),
ending the runway at 1 day; the code never matches `dueDay = 31` in February
(the projected balance of day 1 stays 400) and only charges on Mar 31 (day 32),
so it returns `daysRemaining = 32`. -/
theorem c1_dueDay31_skipped_in_february :
    (RunwayLogic.calculateRunway
        ⟨.num 400, .valid 1740614400000, [⟨"Rent", .num 500, .num 31⟩], [], .num 0⟩).map
      (fun r => (r.daysRemaining, ((r.projectedBalance.drop 1).head?).map DayBalance.balance)) =
    .ok (32, some 400) := by
  with_unfolding_all decide

/-- C2 (result length invariant): the claim fails on the code.  With balance
0 and daily spend 1 the balance goes negative on day 0; the loop pushes the
record of the failing day before breaking, so `daysRemaining = 0` but
`projectedBalance` has 1 entry (in general `daysRemaining + 1` entries
whenever the run breaks within the horizon). -/
theorem c2_projection_length_mismatch :
    (RunwayLogic.calculateRunway ⟨.num 0, .valid 0, [], [], .num 1⟩).map
      (fun r => (r.daysRemaining, r.projectedBalance.length)) = .ok (0, 1) := by
  with_unfolding_all decide

/-- C3 (monotonicity in starting balance): for a fixed start date, obligation
list, income list and daily variable spend, adding `extra ≥ 0` to the
starting balance can only increase `daysRemaining`. -/
theorem c3_daysRemaining_monotone_in_balance (p : RunwayParams) (bA extra : ℚ)
    (rA rB : RunwayResult)
    (hbal : p.currentBalance = JSNum.num bA) (hextra : 0 ≤ extra)
    (hokA : RunwayLogic.calculateRunway p = .ok rA)
    (hokB : RunwayLogic.calculateRunway
        { p with currentBalance := JSNum.num (bA + extra) } = .ok rB) :
    rA.daysRemaining ≤ rB.daysRemaining := by
  obtain ⟨-, rfl⟩ := (calculateRunway_ok_iff _ _).mp hokA
  obtain ⟨-, rfl⟩ := (calculateRunway_ok_iff _ _).mp hokB
  simp only [runwayCore, hbal, JSNum.toRat]
  by_cases hA : bA < 0
  · rw [if_pos hA]
    exact Nat.zero_le _
  · have hB : ¬ bA + extra < 0 := not_lt.mpr (add_nonneg (not_lt.mp hA) hextra)
    rw [if_neg hA, if_neg hB]
    exact runLoop_mono _ _ _ 365 bA (bA + extra) _ 0 [] []
      (le_add_of_nonneg_right hextra)

/-- C3 witness: balance 100 vs 150, daily spend 100, no obligations/income:
1 day ≤ 1 day. -/
theorem c3_witness :
    (0 : ℚ) ≤ 50 ∧
    (⟨1, 3, 86400000, .critical, [⟨0, 0⟩, ⟨86400000, -100⟩]⟩ : RunwayResult).daysRemaining ≤
      (⟨1, 5, 86400000, .critical, [⟨0, 50⟩, ⟨86400000, -50⟩]⟩ : RunwayResult).daysRemaining :=
  ⟨by norm_num,
    c3_daysRemaining_monotone_in_balance
      ⟨.num 100, .valid 0, [], [], .num 100⟩ 100 50
      ⟨1, 3, 86400000, .critical, [⟨0, 0⟩, ⟨86400000, -100⟩]⟩
      ⟨1, 5, 86400000, .critical, [⟨0, 50⟩, ⟨86400000, -50⟩]⟩
      rfl (by norm_num)
      (by with_unfolding_all rfl) (by with_unfolding_all rfl)⟩

/-- C4 (zero balance is still solvent): with balance 100, daily spend 100,
no obligations and one income of 500 dated the day after the start, the run
succeeds; day 0 ends at exactly 0, is counted as survived, and the
simulation continues, giving `daysRemaining = 6 ≥ 1`. -/
theorem c4_zero_balance_survives :
    (RunwayLogic.calculateRunway
        ⟨.num 100, .valid 0, [], [⟨"Mom", .num 500, .valid 86400000⟩], .num 100⟩).map
      (fun r => (r.daysRemaining, (r.projectedBalance.head?).map DayBalance.balance)) =
    .ok (6, some 0) := by
  with_unfolding_all decide

/-- C5 (negative-start short-circuit): any validated input with a negative
starting balance returns days 0, safe spend 0, broke date = start date,
critical status and an empty projection. -/
theorem c5_negative_start_short_circuit (p : RunwayParams) (r : RunwayResult)
    (hok : RunwayLogic.calculateRunway p = .ok r)
    (hneg : p.currentBalance.toRat < 0) :
    r.daysRemaining = 0 ∧ r.safeDailySpend = 0 ∧ r.brokeDate = p.startDate.time ∧
      r.status = .critical ∧ r.projectedBalance = [] := by
  obtain ⟨-, rfl⟩ := (calculateRunway_ok_iff _ _).mp hok
  simp [runwayCore, if_pos hneg]

/-- C5 witness: balance −5 (validated: within [−1,000,000, 0)). -/
theorem c5_witness :
    (⟨0, 0, 0, .critical, []⟩ : RunwayResult).daysRemaining = 0 ∧
    (⟨0, 0, 0, .critical, []⟩ : RunwayResult).safeDailySpend = 0 ∧
    (⟨0, 0, 0, .critical, []⟩ : RunwayResult).brokeDate = (JSDate.valid 0).time ∧
    (⟨0, 0, 0, .critical, []⟩ : RunwayResult).status = .critical ∧
    (⟨0, 0, 0, .critical, []⟩ : RunwayResult).projectedBalance = [] :=
  c5_negative_start_short_circuit ⟨.num (-5), .valid 0, [], [], .num 10⟩
    ⟨0, 0, 0, .critical, []⟩
    (by with_unfolding_all rfl) (by norm_num [JSNum.toRat])

/-- C6 (raises-iff for InvalidInput): the run returns a result (rather than
throwing) exactly when every precondition holds — finite in-band balance and
spend, valid start date, well-formed obligations and income events.  The
rejection path returns the first offending message and never clamps or
coerces the input. -/
theorem c6_invalid_input_iff (p : RunwayParams) :
    resultIsOk (RunwayLogic.calculateRunway p) = true ↔ PrecondsHold p :=
  (resultIsOk_iff p).trans (validateParams_none_iff p)

/-- C6 witness: a fully valid input on the left, and its preconditions on
the right. -/
theorem c6_witness :
    resultIsOk (RunwayLogic.calculateRunway ⟨.num 1000, .valid 0, [], [], .num 100⟩) = true ↔
      PrecondsHold ⟨.num 1000, .valid 0, [], [], .num 100⟩ :=
  c6_invalid_input_iff ⟨.num 1000, .valid 0, [], [], .num 100⟩

/-- C7 (horizon exhaustion): for a validated input with non-negative balance
whose simulated balance never goes negative within 365 days, the run returns
`daysRemaining = 365` and `brokeDate` one day past the last simulated day,
i.e. the start date plus 365 days. -/
theorem c7_horizon_exhaustion (p : RunwayParams)
    (hok : resultIsOk (RunwayLogic.calculateRunway p) = true)
    (hb : 0 ≤ p.currentBalance.toRat)
    (hsafe : ∀ k, k < 365 → 0 ≤ balAfter p.fixedExpenses p.incomeEvents
        p.dailyVariableSpend.toRat p.currentBalance.toRat p.startDate.time k) :
    (RunwayLogic.calculateRunway p).map (fun r => (r.daysRemaining, r.brokeDate)) =
      .ok (365, addDaysTs p.startDate.time 365) := by
  have hv := (resultIsOk_iff p).mp hok
  have hcalc : RunwayLogic.calculateRunway p = .ok (runwayCore p) := by
    unfold calculateRunway
    rw [hv]
  rw [hcalc]
  obtain ⟨hd, hc⟩ := runLoop_full p.fixedExpenses p.incomeEvents
    p.dailyVariableSpend.toRat 365 p.currentBalance.toRat p.startDate.time 0 [] hsafe
  simp only [Except.map, runwayCore, if_neg (not_lt.mpr hb)]
  rw [hd, hc]
  unfold addDaysTs
  norm_num

/-- C7 witness: balance 5, zero spend, no obligations or income: the balance
stays 5 forever, so the horizon is exhausted at 365 days. -/
theorem c7_witness :
    (RunwayLogic.calculateRunway ⟨.num 5, .valid 0, [], [], .num 0⟩).map
      (fun r => (r.daysRemaining, r.brokeDate)) =
    .ok (365, addDaysTs (JSDate.valid 0).time 365) :=
  c7_horizon_exhaustion ⟨.num 5, .valid 0, [], [], .num 0⟩ (by with_unfolding_all rfl)
    (by norm_num [JSNum.toRat])
    (fun k _ => by
      show (0 : ℚ) ≤ balAfter [] [] (JSNum.num 0).toRat (JSNum.num 5).toRat
        (JSDate.valid 0).time k
      show (0 : ℚ) ≤ balAfter [] [] 0 5 0 k
      rw [balAfter_nil]
      norm_num)

/-- C8 (non-negativity, bound and status bands): every successful run returns
`daysRemaining` between 0 and 365 (it is a `Nat`), with `critical` below 7
days, `warning` from 7 to 29, and `good` from 30 up. -/
theorem c8_days_bounds_and_status (p : RunwayParams) (r : RunwayResult)
    (hok : RunwayLogic.calculateRunway p = .ok r) :
    r.daysRemaining ≤ 365 ∧
      r.status = (if r.daysRemaining < 7 then Status.critical
        else if r.daysRemaining < 30 then Status.warning else Status.good) := by
  obtain ⟨-, rfl⟩ := (calculateRunway_ok_iff _ _).mp hok
  by_cases hb : p.currentBalance.toRat < 0
  · simp [runwayCore, if_pos hb, statusOf]
  · simp only [runwayCore, if_neg hb]
    constructor
    · simpa using runLoop_days_le p.fixedExpenses p.incomeEvents
        p.dailyVariableSpend.toRat 365 p.currentBalance.toRat p.startDate.time 0 []
    · rfl

/-- C8 witness: balance 1000, spend 100 gives 10 days and `warning`
(spec scenario A). -/
theorem c8_witness :
    (⟨10, 33, 864000000, .warning,
      [⟨0, 900⟩, ⟨86400000, 800⟩, ⟨172800000, 700⟩, ⟨259200000, 600⟩,
       ⟨345600000, 500⟩, ⟨432000000, 400⟩, ⟨518400000, 300⟩, ⟨604800000, 200⟩,
       ⟨691200000, 100⟩, ⟨777600000, 0⟩, ⟨864000000, -100⟩]⟩ : RunwayResult).daysRemaining ≤ 365 ∧
    (⟨10, 33, 864000000, .warning,
      [⟨0, 900⟩, ⟨86400000, 800⟩, ⟨172800000, 700⟩, ⟨259200000, 600⟩,
       ⟨345600000, 500⟩, ⟨432000000, 400⟩, ⟨518400000, 300⟩, ⟨604800000, 200⟩,
       ⟨691200000, 100⟩, ⟨777600000, 0⟩, ⟨864000000, -100⟩]⟩ : RunwayResult).status =
      (if (⟨10, 33, 864000000, .warning,
        [⟨0, 900⟩, ⟨86400000, 800⟩, ⟨172800000, 700⟩, ⟨259200000, 600⟩,
         ⟨345600000, 500⟩, ⟨432000000, 400⟩, ⟨518400000, 300⟩, ⟨604800000, 200⟩,
         ⟨691200000, 100⟩, ⟨777600000, 0⟩, ⟨864000000, -100⟩]⟩ : RunwayResult).daysRemaining < 7
        then Status.critical
        else if (⟨10, 33, 864000000, .warning,
          [⟨0, 900⟩, ⟨86400000, 800⟩, ⟨172800000, 700⟩, ⟨259200000, 600⟩,
           ⟨345600000, 500⟩, ⟨432000000, 400⟩, ⟨518400000, 300⟩, ⟨604800000, 200⟩,
           ⟨691200000, 100⟩, ⟨777600000, 0⟩, ⟨864000000, -100⟩]⟩ : RunwayResult).daysRemaining < 30
          then Status.warning else Status.good) :=
  c8_days_bounds_and_status ⟨.num 1000, .valid 0, [], [], .num 100⟩ _
    (by with_unfolding_all rfl)

/-- C9 (safe-spend formula): every successful run with non-negative balance
returns a `safeDailySpend` equal to the formula of the claim — balance plus
the income in the 30-day window minus the obligations of the 30 days, zero-cut and
floor-averaged over 30 — and hence a non-negative integer; the formula takes
no daily-variable-spend argument, so the result is independent of it. -/
theorem c9_safe_spend_formula (p : RunwayParams) (r : RunwayResult)
    (hok : RunwayLogic.calculateRunway p = .ok r)
    (hb : 0 ≤ p.currentBalance.toRat) :
    r.safeDailySpend = safeSpendSpec p.currentBalance.toRat p.startDate.time
        p.fixedExpenses p.incomeEvents ∧ 0 ≤ r.safeDailySpend := by
  obtain ⟨-, rfl⟩ := (calculateRunway_ok_iff _ _).mp hok
  have hsafe : (runwayCore p).safeDailySpend = calculateSafeSpendForTarget 30 p := by
    simp [runwayCore, if_neg (not_lt.mpr hb)]
  rw [hsafe, calculateSafeSpend_eq_spec]
  refine ⟨rfl, ?_⟩
  simp only [safeSpendSpec]
  split_ifs with h
  · exact le_refl 0
  · refine Rat.le_floor.mpr ?_
    push_cast
    have hpos := lt_of_not_le h
    positivity

/-- C9 witness: balance 3000, no obligations, no income, daily spend 100000:
`safeDailySpend = floor(3000/30) = 100` regardless of the daily spend. -/
theorem c9_witness :
    (⟨0, 100, 0, .critical, [⟨0, -97000⟩]⟩ : RunwayResult).safeDailySpend =
      safeSpendSpec (JSNum.num 3000).toRat (JSDate.valid 0).time [] [] ∧
    0 ≤ (⟨0, 100, 0, .critical, [⟨0, -97000⟩]⟩ : RunwayResult).safeDailySpend :=
  c9_safe_spend_formula ⟨.num 3000, .valid 0, [], [], .num 100000⟩
    ⟨0, 100, 0, .critical, [⟨0, -97000⟩]⟩
    (by with_unfolding_all rfl) (by norm_num [JSNum.toRat])

/-- C10 (income-date granularity inconsistency): with a start of noon on the
epoch day and an income of 600 timestamped midnight of the same day, the
simulation credits the income (`isSameDay` holds, and the recorded day-0
balance 3000 + 600 − 100000 = −96400 includes it) while the safe-spend
computation excludes it (its timestamp comparison `startDate ≤ e.date`
fails), yielding `safeDailySpend = floor(3000/30) = 100` rather than
`floor(3600/30) = 120`. -/
theorem c10_income_granularity_inconsistency :
    RunwayLogic.calculateRunway
        ⟨.num 3000, .valid 43200000, [], [⟨"Gig", .num 600, .valid 0⟩], .num 100000⟩ =
      .ok ⟨0, 100, 43200000, .critical, [⟨43200000, -96400⟩]⟩ ∧
    isSameDay 0 43200000 = true ∧ ¬ ((43200000 : Int) ≤ 0) :=
  ⟨by with_unfolding_all rfl, by decide, by decide⟩
